import Mathlib

/-!
A verification development for the incident-broadcast orchestration core
(`src/runtime/orchestrator.py`, `src/runtime/plan_executor.py`,
`src/runtime/readiness.py`, `src/runtime/repair.py`,
`src/domain/policies/policy.py`, `src/domain/approval/repository.py`,
`src/api/routes/approvals.py`).

The Python code is shallowly embedded: pure functions become Lean functions,
raising code returns `Except PyErr`, the approval repository becomes explicit
state passing over a list of rows, and external collaborators declared as
Protocols (the tool harness, the policy object handed to the executor, the
model client) become function parameters, mirroring how the source consumes
them through narrow interfaces.
-/

namespace PromptEng

/-- Values as returned by `json.loads` / stored in `dict[str, Any]` fields.
Numbers are modeled as integers (no float arithmetic occurs in the embedded code). -/
inductive Json where
  | null : Json
  | bool (b : Bool) : Json
  | num (n : Int) : Json
  | str (s : String) : Json
  | arr (items : List Json) : Json
  | obj (entries : List (String × Json)) : Json
  deriving Repr, BEq

/-- Python truthiness, `bool(x)`, on embedded values. -/
def py_bool : Json → Bool
  | .null => false
  | .bool b => b
  | .num n => n != 0
  | .str s => s != ""
  | .arr items => !items.isEmpty
  | .obj entries => !entries.isEmpty

/-- Key lookup on an embedded JSON object; `none` for missing keys or non-objects. -/
def Json.getKey? : Json → String → Option Json
  | .obj entries, k => entries.lookup k
  | _, _ => none

/-- The closed enum `ToolName` of `src/schemas.py`. -/
inductive ToolName where
  | send_slack_message
  | send_email
  | request_missing_info
  deriving Repr, DecidableEq

/-- The `.value` attribute of the `ToolName` enum. -/
def ToolName.value : ToolName → String
  | .send_slack_message => "send_slack_message"
  | .send_email => "send_email"
  | .request_missing_info => "request_missing_info"

/-- Exceptions raised by the embedded code, one constructor per Python
exception class that appears on an embedded control path. -/
inductive PyErr where
  | typeError (msg : String)
  | keyError (msg : String)
  | attributeError (msg : String)
  | validationError (msg : String)
  | jsonDecodeError (msg : String)
  | orchestrationError (msg : String)
  | toolExecutionError (msg : String)
  | policyViolation (msg : String)
  | noResultFound
  | httpException (msg : String)
  deriving Repr, DecidableEq

/-! ## Security policy (`src/domain/policies/policy.py`) -/

/-- The `PolicyOutcome` enum of `policy_decision.py`. -/
inductive PolicyOutcome where
  | ALLOW
  | REQUIRE_APPROVAL
  | DENY
  deriving Repr, DecidableEq

/-- The frozen dataclass `PolicyDecision` of `policy_decision.py`:
`tool` and `reason` are `Optional` and default to `None`. -/
structure PolicyDecision where
  outcome : PolicyOutcome
  tool : Option ToolName := none
  reason : Option String := none
  deriving Repr, DecidableEq

/-- The frozen dataclass `SecurityPolicy` (policy.py lines 39-49). The Python
sets of tool names are modeled as finite sets; only membership, emptiness and
set literals are consumed by the embedded code. -/
structure SecurityPolicy where
  allowed_tools : Finset ToolName
  approval_required_tools : Finset ToolName
  deriving DecidableEq

/-- Embeds `SecurityPolicy.evaluate_tool` (policy.py lines 51-81): DENY when the tool
is not in the allowed set, else REQUIRE_APPROVAL when it is in the
approval-required set, else ALLOW (with no tool and no reason attached,
exactly as in the source). -/
def SecurityPolicy.evaluate_tool (p : SecurityPolicy) (tool : ToolName) : PolicyDecision :=
  if tool ∉ p.allowed_tools then
    { outcome := .DENY
      tool := some tool
      reason := some ("Tool " ++ tool.value ++ " not allowed by policy") }
  else if tool ∈ p.approval_required_tools then
    { outcome := .REQUIRE_APPROVAL
      tool := some tool
      reason := some ("Tool " ++ tool.value ++ " requires human approval") }
  else
    { outcome := .ALLOW }

/-- Embeds `evaluate_plan` (policy.py lines 142-146): one decision per tool, in input order. -/
def evaluate_plan (policy : SecurityPolicy) (tools : List ToolName) : List PolicyDecision :=
  tools.map policy.evaluate_tool

/-- Embeds `build_policy_for_workflow` (policy.py lines 111-139). -/
def build_policy_for_workflow (workflow : String) : SecurityPolicy :=
  if workflow = "notification_router" then
    { allowed_tools := {.send_slack_message, .send_email, .request_missing_info}
      approval_required_tools := ∅ }
  else if workflow = "incident_broadcast" then
    { allowed_tools := {.send_slack_message, .send_email, .request_missing_info}
      approval_required_tools := {.send_slack_message, .send_email} }
  else
    { allowed_tools := ∅, approval_required_tools := ∅ }

/-! ## Workflow models (`src/runtime/workflows.py`) -/

/-- Embeds `PlannedToolCall` (workflows.py lines 17-21). The `arguments` dict is an
association list in insertion order; `parallel_group` is `str | None`. -/
structure PlannedToolCall where
  name : ToolName
  arguments : List (String × Json) := []
  parallel_group : Option String := none
  deriving Repr, BEq

/-- Embeds `ExecutionRecord` (workflows.py lines 24-29). -/
structure ExecutionRecord where
  name : ToolName
  ok : Bool
  result : List (String × Json)
  parallel_group : Option String := none
  deriving Repr, BEq

/-- Embeds `IncidentPlan` (workflows.py lines 32-35); `intent` is the literal
string field, constrained to "incident_broadcast" by validation. -/
structure IncidentPlan where
  intent : String := "incident_broadcast"
  steps : List PlannedToolCall
  deriving Repr, BEq

/-! ## Readiness check (`src/runtime/readiness.py`, `src/tools/contracts.py`) -/

/-- Embeds `REQUIRED_FIELDS` (contracts.py lines 4-7) together with the
`.get(key, [])` access used by the readiness checker. -/
def REQUIRED_FIELDS (name : String) : List String :=
  if name = "send_slack_message" then ["channel", "text"]
  else if name = "send_email" then ["to", "subject", "body"]
  else []

/-- The `ReadinessOutcome` enum (readiness.py lines 10-12). -/
inductive ReadinessOutcome where
  | READY
  | NEEDS_INPUT
  deriving Repr, DecidableEq

/-- The frozen dataclass `ReadinessDecision` (readiness.py lines 15-19);
`missing_fields` is a dict from action name to list of field names, modeled
as an association list in insertion order. -/
structure ReadinessDecision where
  outcome : ReadinessOutcome
  missing_fields : Option (List (String × List String)) := none
  reason : Option String := none
  deriving Repr, BEq

/-- Keys of the argument dict of a step (what `f not in step.arguments` tests). -/
def argKeys (step : PlannedToolCall) : List String :=
  step.arguments.map Prod.fst

/-- The list `absent` computed per step (readiness.py line 27). -/
def stepAbsent (step : PlannedToolCall) : List String :=
  (REQUIRED_FIELDS step.name.value).filter (fun f => !(argKeys step).contains f)

/-- Embeds `missing.setdefault(key, []).extend(vs)` on the accumulator dict
(readiness.py line 30): append to an existing entry, else add a new entry
at the end. -/
def addMissing (m : List (String × List String)) (key : String) (vs : List String) :
    List (String × List String) :=
  if (m.map Prod.fst).contains key then
    m.map (fun kv => if kv.1 = key then (kv.1, kv.2 ++ vs) else kv)
  else
    m ++ [(key, vs)]

/-- One iteration of the step loop of `evaluate_readiness` (readiness.py
lines 25-30): accumulate the absent fields of the step when there are any. -/
def missingStepFold (m : List (String × List String)) (step : PlannedToolCall) :
    List (String × List String) :=
  let absent := stepAbsent step
  if absent.isEmpty then m else addMissing m step.name.value absent

/-- The accumulation loop of `evaluate_readiness` (readiness.py lines 24-30). -/
def missingOfSteps (steps : List PlannedToolCall) : List (String × List String) :=
  steps.foldl missingStepFold []

/-- Embeds `evaluate_readiness` (readiness.py lines 22-39). -/
def evaluate_readiness (plan : IncidentPlan) : ReadinessDecision :=
  let missing := missingOfSteps plan.steps
  if !missing.isEmpty then
    { outcome := .NEEDS_INPUT
      missing_fields := some missing
      reason := some "One or more steps are missing required inputs" }
  else
    { outcome := .READY }

/-! ## Plan executor (`src/runtime/plan_executor.py`)

The harness is a Protocol (`run_tool_call(tool_call: dict) -> dict`, raising
`ToolExecutionError` on failure) and the policy object is a Protocol with
`assert_tool_allowed(tool_name)`; both become function parameters. -/

/-- Outcome of `harness.run_tool_call`: a result dict, or a raised exception. -/
def HarnessFn : Type :=
  String → List (String × Json) → Except PyErr (List (String × Json))

/-- The policy Protocol of plan_executor.py lines 14-15: `assert_tool_allowed`
either returns or raises. -/
def PolicyCheckFn : Type :=
  ToolName → Except PyErr Unit

/-- Embeds `grouped.setdefault(step.parallel_group, []).append(step)`
(plan_executor.py line 108) on the insertion-ordered group dict. -/
def setdefaultAppend (groups : List (String × List PlannedToolCall))
    (key : String) (step : PlannedToolCall) : List (String × List PlannedToolCall) :=
  if (groups.map Prod.fst).contains key then
    groups.map (fun kv => if kv.1 = key then (kv.1, kv.2 ++ [step]) else kv)
  else
    groups ++ [(key, [step])]

/-- Embeds `PlanExecutor._partition_steps` (plan_executor.py lines 96-112). The test
`if step.parallel_group:` is Python truthiness, so a step whose group label is
the empty string is sequential, exactly like a `None` label. -/
def partition_steps (steps : List PlannedToolCall) :
    List (String × List PlannedToolCall) × List PlannedToolCall :=
  steps.foldl
    (fun acc step =>
      match step.parallel_group with
      | some g => if g = "" then (acc.1, acc.2 ++ [step]) else (setdefaultAppend acc.1 g step, acc.2)
      | none => (acc.1, acc.2 ++ [step]))
    ([], [])

/-- The record construction in the try/except block of
`PlanExecutor._execute_single_step` (plan_executor.py lines 169-184), as a
function of the outcome of `harness.run_tool_call`: on a result dict the
success flag is `bool(result.get("ok", False))`; a raised `ToolExecutionError`
is converted into a failed record with an error payload; any other exception
propagates. -/
def step_record_of_outcome (step : PlannedToolCall)
    (outcome : Except PyErr (List (String × Json))) : Except PyErr ExecutionRecord :=
  match outcome with
  | .ok result =>
      .ok { name := step.name
            ok := py_bool ((result.lookup "ok").getD (.bool false))
            result := result
            parallel_group := step.parallel_group }
  | .error (.toolExecutionError msg) =>
      .ok { name := step.name
            ok := false
            result := [("ok", .bool false), ("error", .str msg)]
            parallel_group := step.parallel_group }
  | .error e => .error e

/-- Embeds `PlanExecutor._execute_single_step` (plan_executor.py lines 145-187).
After the policy assertion, line 160 runs `args = self._sanitize_args(step)`;
`_sanitize_args` is declared as a staticmethod with parameters `(self, step)`
(lines 190-191), so this one-argument call binds `step` to the parameter named
`self` and leaves the parameter `step` unbound: Python raises `TypeError`
before the harness is ever invoked, and the `try` block at line 169 is never
reached. -/
def execute_single_step (policyCheck : PolicyCheckFn) (harness : HarnessFn)
    (step : PlannedToolCall) : Except PyErr ExecutionRecord := do
  let () ← policyCheck step.name
  .error (.typeError "_sanitize_args() missing 1 required positional argument: step")

/-- Embeds `PlanExecutor.execute` (plan_executor.py lines 39-94). Phase 1 iterates
the parallel groups and calls
`self._execute_parallel_group(trace_id=..., steps=group_steps, policy=policy)`
(lines 70-74); `_execute_parallel_group` (lines 114-121) declares a required
keyword-only parameter `group_id` which this call site does not pass, so the
first group raises `TypeError`. Phase 2 runs the sequential steps one by one
through `_execute_single_step`. -/
def PlanExecutor.execute (policyCheck : PolicyCheckFn) (harness : HarnessFn)
    (steps : List PlannedToolCall) : Except PyErr (List ExecutionRecord) :=
  let (parallel_groups, sequential_steps) := partition_steps steps
  match parallel_groups with
  | _ :: _ =>
      .error (.typeError
        "_execute_parallel_group() missing 1 required keyword-only argument: group_id")
  | [] =>
      sequential_steps.foldlM
        (fun records step => do
          let record ← execute_single_step policyCheck harness step
          pure (records ++ [record]))
        []

/-! ## Repair loop (`src/runtime/repair.py`, `Orchestrator.run_notification_router`) -/

/-- Embeds `build_repair_prompt` (repair.py lines 13-53). All five parameters are
required; `attempt` and `max_retries` have no defaults. -/
def build_repair_prompt (original_prompt invalid_output_text error_message : String)
    (attempt max_retries : Nat) : String :=
  "You previously produced an invalid tool call JSON.\n\nERROR:\n"
    ++ error_message
    ++ "\n\nINVALID OUTPUT (RAW TEXT):\n"
    ++ invalid_output_text
    ++ "\n\nATTEMPTS:\nThis is repair attempt #"
    ++ toString (attempt + 1) ++ " of " ++ toString max_retries
    ++ ".\n\nINSTRUCTIONS:\n- Return ONLY ONE valid JSON object with keys: \"name\" and \"arguments\"\n- Do not include any additional keys\n- Do not include prose\n- Choose \"request_missing_info\" if required fields are missing\n- Do NOT change the intent or tool choice unless required to fix the error.\n\nORIGINAL PROMPT:\n"
    ++ original_prompt

/-- Outcome of one loop iteration of `run_notification_router` up to the end
of its try block: the model responds with `raw` text, which either parses,
validates and executes to a tool result payload, or fails with a
`ValueError`/`json.JSONDecodeError` (parse failure) or a
`ToolExecutionError` (tool failure). -/
inductive AttemptOutcome where
  | success (payload : List (String × Json))
  | parseFailure (raw : String) (errMsg : String)
  | toolFailure (raw : String) (errMsg : String)

/-- Embeds `Orchestrator.run_notification_router` (orchestrator.py lines 76-133),
parameterized by the per-attempt outcome function `gen` (the composed model
call, parse, validation and harness execution of one iteration) and returning
the number of generation attempts performed together with the result.

The loop `for attempt in range(max_retries + 1)` can only ever run its body
for `attempt = 0`: the body returns on success, breaks and raises when
`attempt >= max_retries`, and otherwise reaches
`current_prompt = build_repair_prompt(original_prompt=..., invalid_output_text=..., error_message=...)`
(lines 117-121 and 127-131), a call that omits the required parameters
`attempt` and `max_retries` of `build_repair_prompt` (repair.py line 13) and
therefore raises `TypeError` out of the loop. -/
def run_notification_router (gen : Nat → String → AttemptOutcome)
    (rendered : String) (max_retries : Nat) :
    Nat × Except PyErr (List (String × Json)) :=
  match gen 0 rendered with
  | .success payload => (1, .ok payload)
  | .parseFailure _ err =>
      if max_retries ≤ 0 then
        (1, .error (.orchestrationError ("Orchestration failed after retries: " ++ err)))
      else
        (1, .error (.typeError
          "build_repair_prompt() missing 2 required positional arguments: attempt and max_retries"))
  | .toolFailure _ err =>
      if max_retries ≤ 0 then
        (1, .error (.orchestrationError ("Orchestration failed after retries: " ++ err)))
      else
        (1, .error (.typeError
          "build_repair_prompt() missing 2 required positional arguments: attempt and max_retries"))

/-! ## Approval repository (`src/domain/approval/repository.py`) and the
reachable decision operations (`Orchestrator.resume_approved_workflow`,
the reject route of `src/api/routes/approvals.py`).

The `approval_requests` table is a list of rows; an approval id is the row
index assigned at insertion time. -/

/-- One row of the `approval_requests` table; `status` is the stored string
(`PENDING`, `APPROVED` or `REJECTED`), as compared by the source. -/
structure ApprovalRequest where
  trace_id : String
  workflow : String
  tool_name : String
  safe_user_request : String
  plan : Json
  reason : String
  status : String
  requested_by : Option String
  decided_by : Option String := none
  deriving Repr, BEq

/-- Embeds `ApprovalRequestRepository.create_pending` (repository.py lines 110-161):
inserts one new row with status PENDING and returns its id. -/
def create_pending (repo : List ApprovalRequest) (trace_id workflow tool_name
    safe_user_request : String) (plan : Json) (reason : String)
    (requested_by : Option String) : Nat × List ApprovalRequest :=
  (repo.length,
   repo ++ [{ trace_id := trace_id
              workflow := workflow
              tool_name := tool_name
              safe_user_request := safe_user_request
              plan := plan
              reason := reason
              status := "PENDING"
              requested_by := requested_by }])

/-- Embeds `ApprovalRequestRepository.get` (repository.py lines 164-184): `.one()`
raises when no row matches the id. -/
def repo_get (repo : List ApprovalRequest) (approval_id : Nat) :
    Except PyErr ApprovalRequest :=
  match repo[approval_id]? with
  | some row => .ok row
  | none => .error .noResultFound

/-- Embeds `ApprovalRequestRepository.mark_approved` (repository.py lines 60-78):
an UPDATE keyed only on the id — it carries no status guard of its own. -/
def mark_approved (repo : List ApprovalRequest) (approval_id : Nat)
    (approved_by : String) : List ApprovalRequest :=
  match repo[approval_id]? with
  | some row => repo.set approval_id { row with status := "APPROVED", decided_by := some approved_by }
  | none => repo

/-- Embeds `ApprovalRequestRepository.mark_rejected` (repository.py lines 80-108):
an UPDATE keyed only on the id, also setting the reason. -/
def mark_rejected (repo : List ApprovalRequest) (approval_id : Nat)
    (approved_by reason : String) : List ApprovalRequest :=
  match repo[approval_id]? with
  | some row => repo.set approval_id
      { row with status := "REJECTED", decided_by := some approved_by, reason := reason }
  | none => repo

/-- The repository-affecting prefix of `Orchestrator.resume_approved_workflow`
(orchestrator.py lines 314-332): load the approval, fail fatally when its
status is not PENDING, otherwise mark it approved. The remainder of the
function (readiness check, execution, summarization) performs no repository
operation. -/
def resume_approved_workflow (repo : List ApprovalRequest) (approval_id : Nat)
    (approved_by : String) : Except PyErr (List ApprovalRequest) :=
  match repo_get repo approval_id with
  | .error e => .error e
  | .ok approval =>
      if approval.status ≠ "PENDING" then
        .error (.orchestrationError "Approval already decided")
      else
        .ok (mark_approved repo approval_id approved_by)

/-- The reject route (approvals.py lines 104-131): load the approval, refuse
when its status is not PENDING, otherwise mark it rejected. -/
def reject_workflow_route (repo : List ApprovalRequest) (approval_id : Nat)
    (approved_by reason : String) : Except PyErr (List ApprovalRequest) :=
  match repo_get repo approval_id with
  | .error e => .error e
  | .ok existing =>
      if existing.status ≠ "PENDING" then
        .error (.httpException "Cannot reject workflow")
      else
        .ok (mark_rejected repo approval_id approved_by reason)

/-- The repository decision operations reachable in the system: creating a
pending request (approval gate), resuming (approve route) and rejecting
(reject route). -/
inductive RepoOp where
  | create (trace_id workflow tool_name safe_user_request : String)
      (plan : Json) (reason : String) (requested_by : Option String)
  | resume (approval_id : Nat) (approved_by : String)
  | reject (approval_id : Nat) (approved_by reason : String)

/-- Apply one reachable operation; a raised exception leaves the table
unchanged (the failing paths above raise before any UPDATE or INSERT). -/
def applyOp (repo : List ApprovalRequest) : RepoOp → List ApprovalRequest
  | .create trace_id workflow tool_name safe_user_request plan reason requested_by =>
      (create_pending repo trace_id workflow tool_name safe_user_request plan reason requested_by).2
  | .resume approval_id approved_by =>
      match resume_approved_workflow repo approval_id approved_by with
      | .ok repo2 => repo2
      | .error _ => repo
  | .reject approval_id approved_by reason =>
      match reject_workflow_route repo approval_id approved_by reason with
      | .ok repo2 => repo2
      | .error _ => repo

/-- Apply a sequence of reachable operations in order. -/
def applyOps (ops : List RepoOp) (repo : List ApprovalRequest) : List ApprovalRequest :=
  ops.foldl applyOp repo

/-! ## Plan ingestion (`normalize_plan`, Pydantic validation of `IncidentPlan`)

Pydantic v2 validation over parsed JSON values: unknown keys are ignored,
`arguments` defaults to the empty dict, `parallel_group` accepts a string or
null and defaults to null, `intent` is a literal with default
"incident_broadcast", and `steps` is required. -/

/-- Coercion of a JSON value into the `ToolName` enum during validation. -/
def parse_tool_name : Json → Except PyErr ToolName
  | .str "send_slack_message" => .ok .send_slack_message
  | .str "send_email" => .ok .send_email
  | .str "request_missing_info" => .ok .request_missing_info
  | _ => .error (.validationError "name: input should be a valid ToolName")

/-- Pydantic validation of one `PlannedToolCall` from a parsed JSON value. -/
def parse_planned_tool_call : Json → Except PyErr PlannedToolCall
  | .obj entries => do
      let nameJ ← match entries.lookup "name" with
        | some j => .ok j
        | none => .error (.validationError "name: field required")
      let name ← parse_tool_name nameJ
      let arguments ← match entries.lookup "arguments" with
        | none => .ok []
        | some (.obj argEntries) => .ok argEntries
        | some _ => .error (.validationError "arguments: input should be a valid dict")
      let parallel_group ← match entries.lookup "parallel_group" with
        | none => .ok none
        | some .null => .ok none
        | some (.str s) => .ok (some s)
        | some _ => .error (.validationError "parallel_group: input should be a valid string")
      .ok { name := name, arguments := arguments, parallel_group := parallel_group }
  | _ => .error (.validationError "PlannedToolCall: input should be a valid dict")

/-- Embeds `IncidentPlan.model_validate` on a parsed JSON value. -/
def incident_plan_model_validate : Json → Except PyErr IncidentPlan
  | .obj entries => do
      let () ← match entries.lookup "intent" with
        | none => .ok ()
        | some (.str "incident_broadcast") => .ok ()
        | some _ => .error (.validationError "intent: input should be incident_broadcast")
      let stepsJ ← match entries.lookup "steps" with
        | some j => .ok j
        | none => .error (.validationError "steps: field required")
      match stepsJ with
      | .arr items => do
          let steps ← items.mapM parse_planned_tool_call
          .ok { intent := "incident_broadcast", steps := steps }
      | _ => .error (.validationError "steps: input should be a valid list")
  | _ => .error (.validationError "IncidentPlan: input should be a valid dict")

/-- The membership test `"plan" in raw` (orchestrator.py line 426) under
Python semantics: key membership for a dict, element membership for a list,
substring test for a string, `TypeError` otherwise. -/
def py_contains_plan : Json → Except PyErr Bool
  | .obj entries => .ok ((entries.map Prod.fst).contains "plan")
  | .arr items => .ok (items.contains (.str "plan"))
  | .str s => .ok ((s.splitOn "plan").length > 1)
  | _ => .error (.typeError "argument of type is not iterable")

/-- The flattening loop body of `normalize_plan` (orchestrator.py lines
427-437): turn one group entry into the step dicts it contributes. A
non-dict group raises `AttributeError` at `group.get`. -/
def flatten_group (g : Json) : Except PyErr (List Json) :=
  match g with
  | .obj gentries => do
      let group_id := (gentries.lookup "parallel_group").getD .null
      let stepsJ := (gentries.lookup "steps").getD (.arr [])
      let stepItems ← match stepsJ with
        | .arr items => .ok items
        | .obj kvs => .ok (kvs.map (fun kv => Json.str kv.1))
        | _ => .error (.typeError "object is not iterable")
      stepItems.mapM (fun s =>
        match s with
        | .obj sentries => do
            let tool ← match sentries.lookup "tool" with
              | some t => .ok t
              | none => .error (.keyError "tool")
            let params ← match sentries.lookup "parameters" with
              | some p => .ok p
              | none => .error (.keyError "parameters")
            .ok (Json.obj [("name", tool), ("arguments", params), ("parallel_group", group_id)])
        | _ => .error (.typeError "step indices must be valid"))
  | _ => .error (.attributeError "object has no attribute get")

/-- Embeds `normalize_plan` (orchestrator.py lines 425-444, duplicated as
`LLMPlanGenerator.normalize_plan` in llm_plan_generator.py lines 97-117):
a raw object carrying a "plan" key is flattened group by group into step
dicts carrying the enclosing group label, then validated through the
`IncidentPlan` constructor; any other object is validated directly. -/
def normalize_plan (raw : Json) : Except PyErr IncidentPlan := do
  let hasPlan ← py_contains_plan raw
  if hasPlan then do
    let groupsJ ← match raw, raw.getKey? "plan" with
      | .obj _, some j => .ok j
      | .obj _, none => .error (.keyError "plan")
      | _, _ => .error (.typeError "indices must be integers")
    let groups ← match groupsJ with
      | .arr gs => .ok gs
      | .obj kvs => .ok (kvs.map (fun kv => Json.str kv.1))
      | _ => .error (.typeError "object is not iterable")
    let stepDictLists ← groups.mapM flatten_group
    incident_plan_model_validate
      (.obj [("intent", .str "incident_broadcast"), ("steps", .arr stepDictLists.flatten)])
  else
    incident_plan_model_validate raw

/-- The plan parse and validation step of `Orchestrator.run_incident_broadcast`
(orchestrator.py lines 198-209). Line 200 binds the flattened plan and line
201 immediately rebinds `plan` to `IncidentPlan.model_validate(plan_obj)` on
the RAW parsed object, discarding the normalization; `json.JSONDecodeError`
and `ValidationError` are wrapped in an `OrchestrationError` (the raw model
text is logged alongside), while any other exception propagates. The
`parsed` argument is the outcome of `json.loads` on the model text. -/
def orchestrator_parse_plan (parsed : Except PyErr Json) : Except PyErr IncidentPlan :=
  let body : Except PyErr IncidentPlan := do
    let plan_obj ← parsed
    let _plan ← normalize_plan plan_obj
    incident_plan_model_validate plan_obj
  match body with
  | .error (.jsonDecodeError m) =>
      .error (.orchestrationError ("Planner produced invalid plan: " ++ m))
  | .error (.validationError m) =>
      .error (.orchestrationError ("Planner produced invalid plan: " ++ m))
  | r => r

/-- The plan parse and validation step of `LLMPlanGenerator.generate`
(llm_plan_generator.py lines 84-95): here the normalized plan is kept
(`obj = self.normalize_plan(obj)`), and `IncidentPlan.model_validate` applied
to the already-constructed `IncidentPlan` instance returns it unchanged. -/
def generator_parse_plan (parsed : Except PyErr Json) : Except PyErr IncidentPlan :=
  let body : Except PyErr IncidentPlan := do
    let obj ← parsed
    normalize_plan obj
  match body with
  | .error (.jsonDecodeError m) =>
      .error (.orchestrationError ("Invalid plan output: " ++ m))
  | .error (.validationError m) =>
      .error (.orchestrationError ("Invalid plan output: " ++ m))
  | r => r

/-! ## Approval gate phase of `run_incident_broadcast`
(orchestrator.py lines 213-256) -/

/-- Embeds `model_dump` of a planned step. -/
def PlannedToolCall.model_dump (s : PlannedToolCall) : Json :=
  .obj [("name", .str s.name.value),
        ("arguments", .obj s.arguments),
        ("parallel_group", match s.parallel_group with | some g => .str g | none => .null)]

/-- Embeds `model_dump` of an incident plan (the snapshot persisted on pause). -/
def IncidentPlan.model_dump (p : IncidentPlan) : Json :=
  .obj [("intent", .str p.intent), ("steps", .arr (p.steps.map PlannedToolCall.model_dump))]

/-- The terminal payload returned when approval is required
(orchestrator.py lines 252-256). -/
structure ApprovalRequiredPayload where
  status : String
  approval_id : Nat
  tools : List String
  deriving Repr, BEq

/-- Result of the policy-check and approval-gate phase: either fall through
to the rest of the run, or pause with the terminal payload. -/
inductive GateResult where
  | proceed
  | paused (payload : ApprovalRequiredPayload)
  deriving Repr, BEq

/-- Embeds `d.tool.value` on a decision (an `AttributeError` would be raised if the
tool field were `None`, which never happens for decisions produced by
`evaluate_plan` with outcome REQUIRE_APPROVAL). -/
def decision_tool_value (d : PolicyDecision) : Except PyErr String :=
  match d.tool with
  | some t => .ok t.value
  | none => .error (.attributeError "NoneType has no attribute value")

/-- The list comprehensions `[d.tool.value for d in approval_needed]`
(orchestrator.py lines 238 and 255): evaluate elementwise, propagating the
first raised exception. -/
def decisions_tool_values : List PolicyDecision → Except PyErr (List String)
  | [] => .ok []
  | d :: ds =>
      match decision_tool_value d, decisions_tool_values ds with
      | .ok v, .ok vs => .ok (v :: vs)
      | .error e, _ => .error e
      | .ok _, .error e => .error e

/-- The policy check and approval gate of `Orchestrator.run_incident_broadcast`
(orchestrator.py lines 213-256): evaluate the policy over the action
names of the plan; raise `OrchestrationError` on the first DENY; collect the decisions
requiring approval; when there are none, fall through with no repository
write; otherwise persist exactly one PENDING approval via `create_pending`
(with the plan snapshot) and return the approval_required payload. -/
def approval_gate_phase (policy : SecurityPolicy) (plan : IncidentPlan)
    (repo : List ApprovalRequest) (trace_id safe_user_request : String)
    (user_id : Option String) : Except PyErr (GateResult × List ApprovalRequest) :=
  let decisions := evaluate_plan policy (plan.steps.map PlannedToolCall.name)
  match decisions.find? (fun d => d.outcome = PolicyOutcome.DENY) with
  | some d => .error (.orchestrationError ((d.reason).getD "None"))
  | none =>
      let approval_needed :=
        decisions.filter (fun d => d.outcome = PolicyOutcome.REQUIRE_APPROVAL)
      if approval_needed.isEmpty then
        .ok (.proceed, repo)
      else
        match decisions_tool_values approval_needed with
        | .error e => .error e
        | .ok toolVals =>
            let created :=
              create_pending repo trace_id "incident_broadcast"
                (String.intercalate ", " toolVals) safe_user_request plan.model_dump
                "One or more tools require approval" user_id
            .ok (.paused { status := "approval_required", approval_id := created.1,
                           tools := toolVals },
                 created.2)

/-- Embeds `run_incident_broadcast` from the policy check onward, with everything
after the approval gate (readiness check, DAG execution, summarization —
orchestrator.py lines 259-311) abstracted as the continuation `rest`: when
the gate pauses, the payload is returned at line 252 and `rest` is never
entered. -/
def run_incident_from_gate (policy : SecurityPolicy) (plan : IncidentPlan)
    (repo : List ApprovalRequest) (trace_id safe_user_request : String)
    (user_id : Option String)
    (rest : List ApprovalRequest → Except PyErr Json) :
    Except PyErr (Json × List ApprovalRequest) :=
  match approval_gate_phase policy plan repo trace_id safe_user_request user_id with
  | .error e => .error e
  | .ok (.paused payload, repo2) =>
      .ok (.obj [("status", .str payload.status),
                 ("approval_id", .num payload.approval_id),
                 ("tools", .arr (payload.tools.map Json.str))],
           repo2)
  | .ok (.proceed, repo2) =>
      match rest repo2 with
      | .error e => .error e
      | .ok out => .ok (out, repo2)

/-! ## Concrete fixtures used by the theorems -/

/-- A policy object whose `assert_tool_allowed` accepts every tool. -/
def allow_all_policy : PolicyCheckFn := fun _ => .ok ()

/-- A harness whose `run_tool_call` always raises `ToolExecutionError`. -/
def failing_harness : HarnessFn := fun _ _ =>
  .error (.toolExecutionError "Tool execution failed: boom")

/-- A harness whose `run_tool_call` always returns a successful payload. -/
def ok_harness : HarnessFn := fun _ _ => .ok [("ok", .bool true)]

/-- A sequential (ungrouped) slack step. -/
def slack_step : PlannedToolCall :=
  { name := .send_slack_message
    arguments := [("channel", .str "#alerts"), ("text", .str "deploy failed")] }

/-- A step carrying the parallel-group label g1. -/
def grouped_email_step : PlannedToolCall :=
  { name := .send_email
    arguments := [("to", .str "dev@example.com"), ("subject", .str "S"), ("body", .str "B")]
    parallel_group := some "g1" }

/-- C1: the claim says a tool-execution failure in one step is recorded as a
success=false record and never aborts the DAG. On the code as written,
`PlanExecutor.execute` on a one-step plan aborts with a `TypeError` raised by
the `self._sanitize_args(step)` call (plan_executor.py line 160, see
`execute_single_step`) before the tool is ever invoked, so no record is
produced at all. -/
theorem c1_execute_aborts_before_recording_failure :
    PlanExecutor.execute allow_all_policy failing_harness [slack_step] =
      .error (.typeError "_sanitize_args() missing 1 required positional argument: step") := by
  rfl

/-- C2: the claim says `execute` returns one record per step, groups first.
On the code as written, a plan containing a parallel group aborts with a
`TypeError` at the `_execute_parallel_group` call site (plan_executor.py
lines 70-74), which omits the required keyword-only argument `group_id`, so
no record list is ever returned. -/
theorem c2_execute_aborts_on_grouped_plan :
    PlanExecutor.execute allow_all_policy ok_harness [grouped_email_step, slack_step] =
      .error (.typeError
        "_execute_parallel_group() missing 1 required keyword-only argument: group_id") := by
  rfl

/-- A per-attempt outcome in which the model always produces unparseable
output. -/
def always_invalid_gen : Nat → String → AttemptOutcome :=
  fun _ _ => .parseFailure "not json" "Expecting value"

/-- C3: with maxRetries=0 the loop attempts exactly once and raises an
`OrchestrationError` wrapping the last error, as the claim says; but with
maxRetries=1 a first-attempt failure reaches the repair-prompt construction,
whose call site (orchestrator.py lines 117-121) omits the required arguments
`attempt` and `max_retries` of `build_repair_prompt` (repair.py line 13), so
the run aborts with a `TypeError` after a single attempt instead of building
a repair prompt and attempting again. -/
theorem c3_repair_loop_crashes_instead_of_retrying :
    run_notification_router always_invalid_gen "PROMPT" 0 =
      (1, .error (.orchestrationError "Orchestration failed after retries: Expecting value")) ∧
    run_notification_router always_invalid_gen "PROMPT" 1 =
      (1, .error (.typeError
        "build_repair_prompt() missing 2 required positional arguments: attempt and max_retries")) := by
  exact ⟨rfl, rfl⟩

/-- The grouped wire shape of a plan, as described by the spec:
one group g1 holding a single email step. -/
def grouped_plan_json : Json :=
  .obj [("plan", .arr [
    .obj [("parallel_group", .str "g1"),
          ("steps", .arr [
            .obj [("tool", .str "send_email"),
                  ("parameters", .obj [("to", .str "dev@example.com"),
                                       ("subject", .str "S"),
                                       ("body", .str "B")])]])]])]

/-- The plan the grouped shape flattens to. -/
def grouped_plan_flattened : IncidentPlan :=
  { intent := "incident_broadcast"
    steps := [{ name := .send_email
                arguments := [("to", .str "dev@example.com"), ("subject", .str "S"),
                              ("body", .str "B")]
                parallel_group := some "g1" }] }

/-- The already-normalized wire shape of the same plan. -/
def normalized_plan_json : Json :=
  .obj [("intent", .str "incident_broadcast"),
        ("steps", .arr [
          .obj [("name", .str "send_email"),
                ("arguments", .obj [("to", .str "dev@example.com"),
                                    ("subject", .str "S"),
                                    ("body", .str "B")]),
                ("parallel_group", .str "g1")]])]

/-- C8: `LLMPlanGenerator.generate` flattens the grouped shape into the plan
carrying the group label, and the already-normalized shape validates
directly, as the claim says; but `run_incident_broadcast` discards the
result of `normalize_plan` (orchestrator.py line 200) and re-validates the
raw object (line 201), so the same grouped shape is rejected there with a
plan-invalid `OrchestrationError`. -/
theorem c8_orchestrator_rejects_grouped_shape :
    generator_parse_plan (.ok grouped_plan_json) = .ok grouped_plan_flattened ∧
    orchestrator_parse_plan (.ok grouped_plan_json) =
      .error (.orchestrationError "Planner produced invalid plan: steps: field required") ∧
    orchestrator_parse_plan (.ok normalized_plan_json) = .ok grouped_plan_flattened := by
  exact ⟨rfl, rfl, rfl⟩

/-- C10: for a step whose tool invocation returns a result payload without
raising, the record construction of `_execute_single_step` (plan_executor.py
lines 169-177) sets the success flag to `bool(result.get("ok", False))`: the
Python truthiness of the ok field, false when the field is absent. -/
theorem c10_success_flag_is_ok_field (step : PlannedToolCall)
    (result : List (String × Json)) :
    step_record_of_outcome step (.ok result) =
      .ok { name := step.name
            ok := py_bool ((result.lookup "ok").getD (.bool false))
            result := result
            parallel_group := step.parallel_group } ∧
    (result.lookup "ok" = none →
      step_record_of_outcome step (.ok result) =
        .ok { name := step.name, ok := false, result := result
              parallel_group := step.parallel_group }) := by
  refine ⟨rfl, fun h => ?_⟩
  simp [step_record_of_outcome, h, py_bool]

/-- Witness for C10 at a concrete payload lacking the ok field: a tool call
that completes without error but returns no ok field is recorded as a failed
step. -/
theorem c10_success_flag_is_ok_field_witness :
    step_record_of_outcome slack_step (.ok [("data", .str "x")]) =
      .ok { name := .send_slack_message, ok := false
            result := [("data", .str "x")], parallel_group := none } :=
  (c10_success_flag_is_ok_field slack_step [("data", .str "x")]).2 rfl

/-- C6: `evaluate_plan` returns one decision per input action, in input
order (so repeated actions yield one decision per occurrence), and the outcome of each
decision follows the DENY / REQUIRE_APPROVAL / ALLOW hierarchy of
`evaluate_tool`. -/
theorem c6_evaluate_plan_per_action (policy : SecurityPolicy) (tools : List ToolName) :
    (evaluate_plan policy tools).length = tools.length ∧
    ∀ i : Fin tools.length,
      ((evaluate_plan policy tools).get
          (Fin.cast (by simp [evaluate_plan]) i)).outcome =
        (if tools.get i ∉ policy.allowed_tools then PolicyOutcome.DENY
         else if tools.get i ∈ policy.approval_required_tools then PolicyOutcome.REQUIRE_APPROVAL
         else PolicyOutcome.ALLOW) := by
  refine ⟨by simp [evaluate_plan], fun i => ?_⟩
  have hmap : (evaluate_plan policy tools).get (Fin.cast (by simp [evaluate_plan]) i) =
      policy.evaluate_tool (tools.get i) := by
    simp [evaluate_plan]
  rw [hmap, SecurityPolicy.evaluate_tool]
  split_ifs <;> rfl

/-- C7: every policy returned by `build_policy_for_workflow` keeps the
approval-required set inside the allowed set, every workflow name other than
the two known ones yields the empty-everything policy, and under any policy a
tool outside the allowed set evaluates to DENY regardless of the approval
set. -/
theorem c7_build_policy_deny_by_default :
    (∀ workflow : String,
        (build_policy_for_workflow workflow).approval_required_tools ⊆
          (build_policy_for_workflow workflow).allowed_tools) ∧
    (∀ workflow : String,
        workflow ≠ "notification_router" → workflow ≠ "incident_broadcast" →
        build_policy_for_workflow workflow =
          { allowed_tools := ∅, approval_required_tools := ∅ }) ∧
    (∀ (policy : SecurityPolicy) (tool : ToolName), tool ∉ policy.allowed_tools →
        (policy.evaluate_tool tool).outcome = PolicyOutcome.DENY) := by
  refine ⟨fun w => ?_, fun w h1 h2 => ?_, fun policy tool h => ?_⟩
  · by_cases h1 : w = "notification_router"
    · simp [build_policy_for_workflow, h1]
    · by_cases h2 : w = "incident_broadcast"
      · simp only [build_policy_for_workflow, h1, h2, if_false, if_true]
        decide
      · simp [build_policy_for_workflow, h1, h2]
  · simp [build_policy_for_workflow, h1, h2]
  · simp [SecurityPolicy.evaluate_tool, h]

/-- Witness for C7: the unknown workflow name resolves to the
empty-everything policy, under which an email send is denied. -/
theorem c7_build_policy_deny_by_default_witness :
    build_policy_for_workflow "unknown_workflow" =
      { allowed_tools := ∅, approval_required_tools := ∅ } ∧
    ((build_policy_for_workflow "unknown_workflow").evaluate_tool .send_email).outcome =
      PolicyOutcome.DENY :=
  ⟨c7_build_policy_deny_by_default.2.1 "unknown_workflow" (by decide) (by decide),
   c7_build_policy_deny_by_default.2.2 (build_policy_for_workflow "unknown_workflow")
     .send_email (by decide)⟩

/-- The accumulator update of the readiness loop never produces the empty
dict. -/
theorem addMissing_ne_nil (m : List (String × List String)) (key : String)
    (vs : List String) : addMissing m key vs ≠ [] := by
  unfold addMissing
  split_ifs with h
  · intro heq
    rw [List.map_eq_nil_iff] at heq
    subst heq
    simp at h
  · simp

/-- The readiness loop ends with a nonempty missing dict exactly when the
starting accumulator is nonempty or some step has absent fields. -/
theorem foldl_missing_ne_nil (steps : List PlannedToolCall) :
    ∀ acc : List (String × List String),
      steps.foldl missingStepFold acc ≠ [] ↔
        (acc ≠ [] ∨ ∃ step ∈ steps, stepAbsent step ≠ []) := by
  induction steps with
  | nil => intro acc; simp
  | cons s ss ih =>
    intro acc
    rw [List.foldl_cons, ih]
    by_cases h : (stepAbsent s).isEmpty
    · have hfold : missingStepFold acc s = acc := by simp [missingStepFold, h]
      have habs : ¬ stepAbsent s ≠ [] := by
        simpa [List.isEmpty_iff] using h
      rw [hfold]
      simp only [List.mem_cons, exists_eq_or_imp]
      tauto
    · have hfold : missingStepFold acc s = addMissing acc s.name.value (stepAbsent s) := by
        simp [missingStepFold, h]
      have habs : stepAbsent s ≠ [] := by
        simpa [List.isEmpty_iff] using h
      rw [hfold]
      have hne := addMissing_ne_nil acc s.name.value (stepAbsent s)
      simp only [List.mem_cons, exists_eq_or_imp]
      tauto

/-- The absent list of a step is nonempty exactly when some required field of its
action is missing from its argument keys. -/
theorem stepAbsent_ne_nil_iff (step : PlannedToolCall) :
    stepAbsent step ≠ [] ↔
      ∃ f ∈ REQUIRED_FIELDS step.name.value, f ∉ argKeys step := by
  unfold stepAbsent
  rw [Ne, List.filter_eq_nil_iff]
  push_neg
  constructor
  · rintro ⟨f, hf, hp⟩
    refine ⟨f, hf, fun hmem => ?_⟩
    have hc : (argKeys step).contains f = true := List.elem_iff.mpr hmem
    rw [hc] at hp
    simp at hp
  · rintro ⟨f, hf, hmem⟩
    refine ⟨f, hf, ?_⟩
    have hc : (argKeys step).contains f = false := by
      cases hcont : (argKeys step).contains f
      · rfl
      · exact absurd (List.elem_iff.mp hcont) hmem
    rw [hc]
    rfl

/-- An email step lacking just the subject field. -/
def email_missing_subject_step : PlannedToolCall :=
  { name := .send_email
    arguments := [("to", .str "dev@example.com"), ("body", .str "B")] }

/-- A plan whose only email step lacks just the subject field. -/
def email_missing_subject_plan : IncidentPlan :=
  { intent := "incident_broadcast"
    steps := [email_missing_subject_step] }

/-- A plan whose steps all carry every required field. -/
def ready_plan : IncidentPlan :=
  { intent := "incident_broadcast"
    steps := [{ name := .send_slack_message
                arguments := [("channel", .str "#alerts"), ("text", .str "hi")] }] }

/-- C9: `evaluate_readiness` returns NEEDS_INPUT exactly when some step is
missing at least one statically required field of its action; otherwise it
returns READY with no missing-field mapping; and an email step missing only
the subject yields the mapping send_email to [subject]. -/
theorem c9_readiness_needs_input_iff :
    (∀ plan : IncidentPlan,
        ((evaluate_readiness plan).outcome = ReadinessOutcome.NEEDS_INPUT ↔
          ∃ step ∈ plan.steps, ∃ f ∈ REQUIRED_FIELDS step.name.value, f ∉ argKeys step)) ∧
    (∀ plan : IncidentPlan,
        (evaluate_readiness plan).outcome = ReadinessOutcome.READY →
        (evaluate_readiness plan).missing_fields = none) ∧
    evaluate_readiness email_missing_subject_plan =
      { outcome := .NEEDS_INPUT
        missing_fields := some [("send_email", ["subject"])]
        reason := some "One or more steps are missing required inputs" } := by
  refine ⟨fun plan => ?_, fun plan => ?_, rfl⟩
  · have key : missingOfSteps plan.steps ≠ [] ↔
        ∃ step ∈ plan.steps, stepAbsent step ≠ [] := by
      simpa using foldl_missing_ne_nil plan.steps []
    unfold evaluate_readiness
    by_cases h : (missingOfSteps plan.steps).isEmpty
    · have hempty : ¬ missingOfSteps plan.steps ≠ [] := by
        simpa [List.isEmpty_iff] using h
      rw [key] at hempty
      push_neg at hempty
      simp only [h]
      constructor
      · intro hout
        exact absurd hout (by simp)
      · rintro ⟨step, hstep, hf⟩
        exact absurd (hempty step hstep) ((stepAbsent_ne_nil_iff step).mpr hf)
    · have hne : missingOfSteps plan.steps ≠ [] := by
        simpa [List.isEmpty_iff] using h
      rw [key] at hne
      simp only [h]
      constructor
      · intro _
        obtain ⟨step, hstep, habs⟩ := hne
        exact ⟨step, hstep, (stepAbsent_ne_nil_iff step).mp habs⟩
      · intro _
        simp
  · unfold evaluate_readiness
    by_cases h : (missingOfSteps plan.steps).isEmpty <;> simp [h]

/-- Witness for C9: the email-missing-subject plan is flagged NEEDS_INPUT,
and a fully specified plan is READY with no missing-field mapping. -/
theorem c9_readiness_needs_input_iff_witness :
    (evaluate_readiness email_missing_subject_plan).outcome =
      ReadinessOutcome.NEEDS_INPUT ∧
    (evaluate_readiness ready_plan).missing_fields = none := by
  constructor
  · refine (c9_readiness_needs_input_iff.1 email_missing_subject_plan).mpr ?_
    refine ⟨email_missing_subject_step, List.mem_singleton_self _, "subject", ?_, ?_⟩
    · decide
    · decide
  · exact c9_readiness_needs_input_iff.2.1 ready_plan (by decide)

/-- One reachable repository operation never alters a row that is already
decided (status other than PENDING): creation only appends, and both decision
paths re-check the loaded status before their UPDATE. -/
theorem applyOp_preserves_decided (repo : List ApprovalRequest) (op : RepoOp) (i : Nat)
    (row : ApprovalRequest) (hget : repo[i]? = some row)
    (hdec : row.status ≠ "PENDING") :
    (applyOp repo op)[i]? = some row := by
  have hlt : i < repo.length := by
    obtain ⟨h, -⟩ := List.getElem?_eq_some_iff.mp hget
    exact h
  cases op with
  | create tid wf tn sur plan reason rb =>
      simp only [applyOp, create_pending]
      rw [List.getElem?_append_left hlt]
      exact hget
  | resume approval_id approved_by =>
      simp only [applyOp, resume_approved_workflow, repo_get]
      cases hid : repo[approval_id]? with
      | none => exact hget
      | some b =>
          by_cases hb : b.status = "PENDING"
          · have hne : approval_id ≠ i := by
              intro h
              subst h
              rw [hid] at hget
              cases hget
              exact hdec hb
            simp only [hb, ne_eq, not_true_eq_false, if_false, ite_false, mark_approved, hid]
            rw [List.getElem?_set_ne hne]
            exact hget
          · have hbne : b.status ≠ "PENDING" := hb
            simp only [ne_eq, hbne, not_false_eq_true, if_true, ite_true]
            exact hget
  | reject approval_id approved_by reason =>
      simp only [applyOp, reject_workflow_route, repo_get]
      cases hid : repo[approval_id]? with
      | none => exact hget
      | some b =>
          by_cases hb : b.status = "PENDING"
          · have hne : approval_id ≠ i := by
              intro h
              subst h
              rw [hid] at hget
              cases hget
              exact hdec hb
            simp only [hb, ne_eq, not_true_eq_false, if_false, ite_false, mark_rejected, hid]
            rw [List.getElem?_set_ne hne]
            exact hget
          · have hbne : b.status ≠ "PENDING" := hb
            simp only [ne_eq, hbne, not_false_eq_true, if_true, ite_true]
            exact hget

/-- C5: resuming an approval whose status is not PENDING fails fatally with
"Approval already decided" (and performs no write), and across every sequence
of reachable repository decision operations, a record that is already decided
(APPROVED or REJECTED) is never given a second decision: its row never
changes again. -/
theorem c5_approval_decided_exactly_once :
    (∀ (repo : List ApprovalRequest) (approval_id : Nat) (approved_by : String)
        (row : ApprovalRequest),
        repo[approval_id]? = some row → row.status ≠ "PENDING" →
        resume_approved_workflow repo approval_id approved_by =
          .error (.orchestrationError "Approval already decided")) ∧
    (∀ (ops : List RepoOp) (repo : List ApprovalRequest) (i : Nat)
        (row : ApprovalRequest),
        repo[i]? = some row → row.status ≠ "PENDING" →
        (applyOps ops repo)[i]? = some row) := by
  constructor
  · intro repo approval_id approved_by row hget hdec
    simp only [resume_approved_workflow, repo_get]
    rw [hget]
    simp [hdec]
  · intro ops
    induction ops with
    | nil =>
        intro repo i row hget _
        simpa [applyOps] using hget
    | cons op ops ih =>
        intro repo i row hget hdec
        have h1 := applyOp_preserves_decided repo op i row hget hdec
        simpa [applyOps, List.foldl_cons] using ih (applyOp repo op) i row h1 hdec

/-- A repository row that has already been approved. -/
def decided_row : ApprovalRequest :=
  { trace_id := "t", workflow := "incident_broadcast", tool_name := "send_email"
    safe_user_request := "r", plan := .obj [], reason := "approval granted"
    status := "APPROVED", requested_by := some "alice", decided_by := some "bob" }

/-- Witness for C5: resuming an already-approved record fails fatally, and
running both decision operations over it leaves the row untouched. -/
theorem c5_approval_decided_exactly_once_witness :
    resume_approved_workflow [decided_row] 0 "carol" =
      .error (.orchestrationError "Approval already decided") ∧
    (applyOps [.resume 0 "carol", .reject 0 "carol" "declined"] [decided_row])[0]? =
      some decided_row :=
  ⟨c5_approval_decided_exactly_once.1 [decided_row] 0 "carol" decided_row rfl (by decide),
   c5_approval_decided_exactly_once.2 [.resume 0 "carol", .reject 0 "carol" "declined"]
     [decided_row] 0 decided_row rfl (by decide)⟩

/-- Every decision produced by `evaluate_plan` with outcome REQUIRE_APPROVAL
carries its tool. -/
theorem evaluate_plan_require_tool_some (policy : SecurityPolicy) (tools : List ToolName)
    (d : PolicyDecision) (hd : d ∈ evaluate_plan policy tools)
    (hout : d.outcome = PolicyOutcome.REQUIRE_APPROVAL) : ∃ t, d.tool = some t := by
  obtain ⟨t, -, rfl⟩ := List.mem_map.mp hd
  refine ⟨t, ?_⟩
  unfold SecurityPolicy.evaluate_tool at hout ⊢
  split_ifs at hout ⊢ with h1 h2
  · rfl

/-- When every decision in the list carries its tool, the tool-value
comprehension succeeds and returns exactly those values in order. -/
theorem decisions_tool_values_ok (l : List PolicyDecision)
    (h : ∀ d ∈ l, ∃ t, d.tool = some t) :
    decisions_tool_values l =
      .ok (l.filterMap (fun d => d.tool.map ToolName.value)) := by
  induction l with
  | nil => rfl
  | cons d ds ih =>
      obtain ⟨t, ht⟩ := h d (List.mem_cons_self d ds)
      have ihh := ih (fun x hx => h x (List.mem_cons_of_mem d hx))
      simp [decisions_tool_values, decision_tool_value, ht, ihh, List.filterMap_cons]

/-- C4: starting from the policy decisions over the actions of the plan (with no
DENY among them): when none requires approval the run proceeds past the gate
with the repository untouched; when at least one does, the gate creates
exactly one PENDING approval record carrying the plan snapshot and the run
returns the terminal approval_required payload for every continuation — no
plan step is executed. -/
theorem c4_approval_gate_pause_or_proceed (policy : SecurityPolicy)
    (plan : IncidentPlan) (repo : List ApprovalRequest)
    (trace_id safe_user_request : String) (user_id : Option String)
    (hnodeny : ∀ d ∈ evaluate_plan policy (plan.steps.map PlannedToolCall.name),
        d.outcome ≠ PolicyOutcome.DENY) :
    ((evaluate_plan policy (plan.steps.map PlannedToolCall.name)).filter
        (fun d => d.outcome = PolicyOutcome.REQUIRE_APPROVAL) = [] →
      approval_gate_phase policy plan repo trace_id safe_user_request user_id =
        .ok (.proceed, repo) ∧
      ∀ rest, run_incident_from_gate policy plan repo trace_id safe_user_request user_id rest =
        (rest repo).map (fun out => (out, repo))) ∧
    (∀ tv : List String,
      tv = ((evaluate_plan policy (plan.steps.map PlannedToolCall.name)).filter
          (fun d => d.outcome = PolicyOutcome.REQUIRE_APPROVAL)).filterMap
            (fun d => d.tool.map ToolName.value) →
      (evaluate_plan policy (plan.steps.map PlannedToolCall.name)).filter
          (fun d => d.outcome = PolicyOutcome.REQUIRE_APPROVAL) ≠ [] →
      approval_gate_phase policy plan repo trace_id safe_user_request user_id =
        .ok (.paused { status := "approval_required", approval_id := repo.length,
                       tools := tv },
             repo ++ [{ trace_id := trace_id, workflow := "incident_broadcast"
                        tool_name := String.intercalate ", " tv
                        safe_user_request := safe_user_request
                        plan := plan.model_dump
                        reason := "One or more tools require approval"
                        status := "PENDING", requested_by := user_id
                        decided_by := none }]) ∧
      ∀ rest, run_incident_from_gate policy plan repo trace_id safe_user_request user_id rest =
        .ok (.obj [("status", .str "approval_required"),
                   ("approval_id", .num repo.length),
                   ("tools", .arr (tv.map Json.str))],
             repo ++ [{ trace_id := trace_id, workflow := "incident_broadcast"
                        tool_name := String.intercalate ", " tv
                        safe_user_request := safe_user_request
                        plan := plan.model_dump
                        reason := "One or more tools require approval"
                        status := "PENDING", requested_by := user_id
                        decided_by := none }])) := by
  have hfind : (evaluate_plan policy (plan.steps.map PlannedToolCall.name)).find?
      (fun d => d.outcome = PolicyOutcome.DENY) = none := by
    rw [List.find?_eq_none]
    intro d hd
    simpa using hnodeny d hd
  constructor
  · intro hempty
    have hgate : approval_gate_phase policy plan repo trace_id safe_user_request user_id =
        .ok (.proceed, repo) := by
      simp only [approval_gate_phase]
      rw [hfind, hempty]
      rfl
    refine ⟨hgate, fun rest => ?_⟩
    unfold run_incident_from_gate
    rw [hgate]
    cases hrest : rest repo <;> simp [Except.map, hrest]
  · intro tv htv hne
    have hall : ∀ d ∈ (evaluate_plan policy (plan.steps.map PlannedToolCall.name)).filter
        (fun d => d.outcome = PolicyOutcome.REQUIRE_APPROVAL), ∃ t, d.tool = some t := by
      intro d hd
      rw [List.mem_filter] at hd
      exact evaluate_plan_require_tool_some policy _ d hd.1 (by simpa using hd.2)
    have hvals := decisions_tool_values_ok _ hall
    have hgate : approval_gate_phase policy plan repo trace_id safe_user_request user_id =
        .ok (.paused { status := "approval_required", approval_id := repo.length,
                       tools := tv },
             repo ++ [{ trace_id := trace_id, workflow := "incident_broadcast"
                        tool_name := String.intercalate ", " tv
                        safe_user_request := safe_user_request
                        plan := plan.model_dump
                        reason := "One or more tools require approval"
                        status := "PENDING", requested_by := user_id
                        decided_by := none }]) := by
      simp only [approval_gate_phase]
      rw [hfind]
      have hnotEmpty : ((evaluate_plan policy (plan.steps.map PlannedToolCall.name)).filter
          (fun d => d.outcome = PolicyOutcome.REQUIRE_APPROVAL)).isEmpty = false := by
        cases hcase : ((evaluate_plan policy (plan.steps.map PlannedToolCall.name)).filter
            (fun d => d.outcome = PolicyOutcome.REQUIRE_APPROVAL)).isEmpty with
        | false => rfl
        | true => exact absurd (List.isEmpty_iff.mp hcase) hne
      rw [hnotEmpty]
      simp only [Bool.false_eq_true, if_false, ite_false]
      rw [hvals, ← htv]
      rfl
    refine ⟨hgate, fun rest => ?_⟩
    unfold run_incident_from_gate
    rw [hgate]

/-- Witness for C4: under the incident-broadcast policy a one-email plan
pauses with exactly one PENDING record carrying the plan snapshot, while
under the notification-router policy (no approval-required tools) the same
plan proceeds with no repository write. -/
theorem c4_approval_gate_pause_or_proceed_witness :
    approval_gate_phase (build_policy_for_workflow "incident_broadcast")
        grouped_plan_flattened [] "trace-1" "checkout errors" (some "alice") =
      .ok (.paused { status := "approval_required", approval_id := 0
                     tools := ["send_email"] },
           [{ trace_id := "trace-1", workflow := "incident_broadcast"
              tool_name := "send_email", safe_user_request := "checkout errors"
              plan := grouped_plan_flattened.model_dump
              reason := "One or more tools require approval"
              status := "PENDING", requested_by := some "alice", decided_by := none }]) ∧
    approval_gate_phase (build_policy_for_workflow "notification_router")
        grouped_plan_flattened [] "trace-2" "checkout errors" none =
      .ok (.proceed, []) := by
  constructor
  · exact ((c4_approval_gate_pause_or_proceed
      (build_policy_for_workflow "incident_broadcast") grouped_plan_flattened []
      "trace-1" "checkout errors" (some "alice") (by decide)).2
        ["send_email"] (by decide) (by decide)).1
  · exact ((c4_approval_gate_pause_or_proceed
      (build_policy_for_workflow "notification_router") grouped_plan_flattened []
      "trace-2" "checkout errors" none (by decide)).1 (by decide)).1

end PromptEng
